import Mathlib

/-!
Verification of the process-control and scheduling core of xv6-rust
(`src/kernel/src/process/process.rs` and `src/kernel/src/process/scheduler.rs`),
as a shallow embedding in Lean 4.

Machine integers (`usize`/`isize`) are modelled as `Nat`/`Int` with explicit
wrap-around `% 2^64` where the Rust code can overflow.  External collaborators
(the address-space component, the physical allocator, the context-switch
routine) are modelled at their interface boundary, as parameters of the
embedded functions.  A Rust `panic!` / `Option::unwrap` on `None` is modelled
by returning `none` from the embedded function (`Except.error` for `sched`,
which panics with a message).
-/

namespace XvSix

/-- Process lifecycle states, from `enum Procstate` in `process.rs`. -/
inductive Procstate where
  | UNUSED
  | USED
  | SLEEPING
  | RUNNABLE
  | RUNNING
  | ZOMBIE
  | ALLOCATED
deriving DecidableEq, Repr

/-- Modelled from the spec: the saved-register block used by the context
switch is "opaque beyond being a fixed-size register save area"
(`Context` lives outside `src/`); `Context::new()` zero-initializes it. -/
structure Context where
  regs : List Nat
deriving DecidableEq, Repr

/-- `Context::new()`: an all-zero register save area (14 saved registers:
`ra`, `sp`, `s0`-`s11` on RISC-V). -/
def Context.new : Context := ⟨List.replicate 14 0⟩

/-- Permission flags of a page-table entry, from `PteFlags` as used in
`process.rs` (`PteFlags::R | PteFlags::X`): a set of named permission
bits, modelled as one Boolean per flag. -/
structure PteFlags where
  r : Bool
  w : Bool
  x : Bool
  u : Bool
deriving DecidableEq, Repr

/-- One mapping installed by `mappages`: virtual address, physical
address, length, permissions. -/
structure MapEntry where
  va : Nat
  pa : Nat
  sz : Nat
  flags : PteFlags
deriving DecidableEq, Repr

/-- The user page table as visible at this core's boundary: the list of
mappings installed through it, plus whether `uvmfree` has torn it down. -/
structure PageTable where
  maps : List MapEntry
  freed : Bool
deriving DecidableEq, Repr

/-- `ProcData` from `process.rs`: the lock-protected mutable fields of one
process.  `trapframe` is a raw pointer, modelled as its address
(`0` = null); `parent` is a nullable non-owning pointer, modelled as an
optional address. -/
structure ProcData where
  state : Procstate
  channel : Nat
  killed : Nat
  xstate : Nat
  pid : Nat
  parent : Option Nat
  kstack : Nat
  size : Nat
  pagetable : Option PageTable
  trapframe : Nat
  context : Context
deriving DecidableEq, Repr

/-- `ProcData::new()`. -/
def ProcData.new : ProcData :=
  { state := .UNUSED
    channel := 0
    killed := 0
    xstate := 0
    pid := 0
    parent := none
    kstack := 0
    size := 0
    pagetable := none
    trapframe := 0
    context := Context.new }

/-- `ProcData::freeproc`: everything, including every field reset, is
guarded by `if !self.trapframe.is_null()`.  The calls into external
collaborators (`kfree` of the trapframe page, `proc_freepagetable` of the
user mappings) are ownership releases whose in-core effect is nulling the
two owning fields.  Note the source resets neither `kstack` nor
`context`. -/
def ProcData.freeproc (d : ProcData) : ProcData :=
  if d.trapframe ≠ 0 then
    { d with
      trapframe := 0
      pagetable := none
      size := 0
      pid := 0
      parent := none
      channel := 0
      killed := 0
      xstate := 0
      state := .UNUSED }
  else
    d

/-- Modelled from the spec (§6 external interfaces, outside `src/`):
the address-space component's shrink operation,
`shrink(old size, new size) → new size`; it never fails. -/
def uvmdealloc_spec : Nat → Nat → Nat := fun _ newsz => newsz

/-- Two's-complement word size of the target (`usize`/`isize` are 64-bit). -/
def WORD : Nat := 2 ^ 64

/-- `ProcData::growproc`.  The behavior of the external address-space
component is passed in: `ua old new` models `uvmalloc` (`none` =
allocation failure), `ud old new` models `uvmdealloc`.  The result is
`none` when the source panics (the unconditional
`self.pagetable.as_mut().unwrap()` on a process with no page table),
otherwise `some (ok, d')` with the source's `bool` result and the updated
process.  `size + n as usize` and `(size as isize + n) as usize` wrap
modulo `2^64` exactly as the Rust casts do. -/
def ProcData.growproc (ua : Nat → Nat → Option Nat) (ud : Nat → Nat → Nat)
    (d : ProcData) (n : Int) : Option (Bool × ProcData) :=
  match d.pagetable with
  | none => none
  | some _ =>
    let size := d.size
    if 0 < n then
      match ua size ((size + n.toNat) % WORD) with
      | some newSize => some (true, { d with size := newSize })
      | none => some (false, d)
    else if n < 0 then
      let newSize := (((size : Int) + n) % (WORD : Int)).toNat
      some (true, { d with size := ud size newSize })
    else
      some (true, { d with size := size })

end XvSix

namespace XvSix

/-- `C4`: when `n > 0` and the address-space component's grow operation
fails, `growproc` returns failure (`false`) and the whole process record
— in particular its `size` field — is unchanged. -/
theorem growproc_alloc_failure (ua : Nat → Nat → Option Nat)
    (ud : Nat → Nat → Nat) (d : ProcData) (n : Int) (pt : PageTable)
    (hpt : d.pagetable = some pt) (hn : 0 < n)
    (hfail : ua d.size ((d.size + n.toNat) % WORD) = none) :
    d.growproc ua ud n = some (false, d) := by
  unfold ProcData.growproc
  rw [hpt]
  simp only [if_pos hn, hfail]

/-- Witness for `growproc_alloc_failure` at a concrete process whose
grow request fails. -/
theorem growproc_alloc_failure_witness :
    ({ ProcData.new with pagetable := some ⟨[], false⟩, size := 4096
       : ProcData }).growproc (fun _ _ => none) uvmdealloc_spec 4096 =
      some (false, { ProcData.new with pagetable := some ⟨[], false⟩, size := 4096 }) :=
  growproc_alloc_failure (fun _ _ => none) uvmdealloc_spec
    { ProcData.new with pagetable := some ⟨[], false⟩, size := 4096 }
    4096 ⟨[], false⟩ rfl (by decide) rfl

/-- `C10`: `growproc` on a `ProcData` whose `pagetable` is `none` does not
return any value (in particular no failure flag): it hits
`self.pagetable.as_mut().unwrap()` and panics, for every requested
delta `n`. -/
theorem growproc_none_pagetable_panics (ua : Nat → Nat → Option Nat)
    (ud : Nat → Nat → Nat) (d : ProcData) (n : Int)
    (hpt : d.pagetable = none) :
    d.growproc ua ud n = none := by
  unfold ProcData.growproc
  rw [hpt]

/-- Witness for `growproc_none_pagetable_panics`: a fresh (`Unused`)
descriptor has no page table, so even `growproc 0` panics rather than
reporting failure. -/
theorem growproc_none_pagetable_panics_witness :
    ProcData.new.growproc (fun _ _ => none) uvmdealloc_spec 0 = none :=
  growproc_none_pagetable_panics (fun _ _ => none) uvmdealloc_spec
    ProcData.new 0 rfl

/-- `C8`: with the shrink behavior of the external address-space
component taken from the spec's boundary (`uvmdealloc_spec`), a shrink
request `n < 0` with `|n| ≤ size` always succeeds and lands `size` at
exactly `size_before + n`; and `growproc 0` is a no-op success for any
component behavior. -/
theorem growproc_shrink_and_zero (ua : Nat → Nat → Option Nat)
    (ud : Nat → Nat → Nat) (d : ProcData) (n : Int) (pt : PageTable)
    (hpt : d.pagetable = some pt) (hneg : n < 0)
    (hbound : n.natAbs ≤ d.size) (hword : d.size < WORD) :
    (∃ d', d.growproc ua uvmdealloc_spec n = some (true, d') ∧
      (d'.size : Int) = (d.size : Int) + n) ∧
    d.growproc ua ud 0 = some (true, d) := by
  constructor
  · unfold ProcData.growproc
    rw [hpt]
    rw [if_neg (by omega : ¬ 0 < n), if_pos hneg]
    refine ⟨_, rfl, ?_⟩
    show ((((((d.size : Int) + n) % (WORD : Int)).toNat : Nat)) : Int) =
      (d.size : Int) + n
    unfold WORD at hword ⊢
    push_cast
    omega
  · unfold ProcData.growproc
    rw [hpt]
    simp
    rw [← hpt]

/-- Witness for `growproc_shrink_and_zero` at a concrete process of size
8192 shrunk by 4096. -/
theorem growproc_shrink_and_zero_witness :
    (∃ d', ({ ProcData.new with pagetable := some ⟨[], false⟩, size := 8192
              : ProcData }).growproc (fun _ _ => none) uvmdealloc_spec (-4096) =
        some (true, d') ∧
      (d'.size : Int) = ((8192 : Nat) : Int) + (-4096)) ∧
    ({ ProcData.new with pagetable := some ⟨[], false⟩, size := 8192
       : ProcData }).growproc (fun _ _ => none) uvmdealloc_spec 0 =
      some (true, { ProcData.new with pagetable := some ⟨[], false⟩, size := 8192 }) :=
  growproc_shrink_and_zero (fun _ _ => none) uvmdealloc_spec
    { ProcData.new with pagetable := some ⟨[], false⟩, size := 8192 }
    (-4096) ⟨[], false⟩ rfl (by decide) (by decide) (by decide)

/-- `C5` counterexample: `freeproc` is not a full reset on every
`ProcData`.  (1) every reset in the source is guarded by
`if !self.trapframe.is_null()`, so on a descriptor whose trapframe is
null the `pid` (for instance) survives; (2) even on a descriptor with a
trapframe, the saved `context` is not reset, so the result is not
bit-for-bit a fresh descriptor up to `kstack` and name. -/
theorem freeproc_not_full_reset :
    (ProcData.freeproc { ProcData.new with pid := 1 }).pid = 1 ∧
    (ProcData.freeproc
        { ProcData.new with trapframe := 4096,
                            context := ⟨List.replicate 14 1⟩ }).context ≠
      Context.new := by
  constructor
  · rfl
  · decide

/-- `C5` as amended: on a `ProcData` whose trapframe is non-null,
`freeproc` nulls `trapframe` and `pagetable` and zeroes `size`, `pid`,
`parent`, `channel`, `killed` and `xstate`, finishing with
`state = Unused` — leaving the descriptor equal to a freshly initialized
one except for its `kstack`, its debug name, and its saved `context`,
which are untouched; on a null trapframe `freeproc` is a no-op. -/
theorem freeproc_resets (d : ProcData) (h : d.trapframe ≠ 0) :
    d.freeproc = { ProcData.new with kstack := d.kstack, context := d.context } ∧
    ∀ d₂ : ProcData, d₂.trapframe = 0 → d₂.freeproc = d₂ := by
  constructor
  · unfold ProcData.freeproc
    rw [if_pos h]
    rfl
  · intro d₂ h₂
    unfold ProcData.freeproc
    rw [if_neg (by simp [h₂])]

/-- Witness for `freeproc_resets` at a descriptor holding only a
trapframe page: the result is exactly a fresh descriptor. -/
theorem freeproc_resets_witness :
    ({ ProcData.new with trapframe := 4096 } : ProcData).freeproc = ProcData.new ∧
    ∀ d₂ : ProcData, d₂.trapframe = 0 → d₂.freeproc = d₂ :=
  freeproc_resets { ProcData.new with trapframe := 4096 } (by decide)

/-- The per-core state used by `sched` in `scheduler.rs`: the
lock-nesting depth `noff`, the saved interrupt-enable-on-exit flag
`intena`, and the core's scheduler context. -/
structure Cpu where
  noff : Nat
  intena : Bool
  context : Context
deriving DecidableEq, Repr

/-- `sched` from `scheduler.rs`.  `intrEnabled` is what `intr_get()`
reads from the hardware status register; `swtchEff` is the net effect the
context switch (and everything the core runs before switching back) has
on the per-core state — `swtch` itself is an opaque external primitive.
A `panic!` is modelled as `Except.error` with the panic message. -/
def sched (swtchEff : Cpu → Cpu) (intrEnabled : Bool) (c : Cpu) :
    Except String Cpu :=
  if c.noff ≠ 1 then .error "sched locks"
  else if intrEnabled then .error "sched interruptible"
  else
    let intena := c.intena
    let c2 := swtchEff c
    .ok { c2 with intena := intena }

/-- `C3`: `sched` with lock-nesting depth ≠ 1 takes the fatal path; with
interrupts enabled it takes the fatal path; with depth 1 and interrupts
disabled it proceeds, and the `intena` flag read before the context
switch equals the value stored back into the core afterwards — whatever
the switched-to code did to the core's state in between. -/
theorem sched_invariants (f : Cpu → Cpu) (intr : Bool) (c : Cpu) :
    (c.noff ≠ 1 → sched f intr c = .error "sched locks") ∧
    (intr = true → ∃ msg, sched f intr c = .error msg) ∧
    (c.noff = 1 → intr = false → ∃ c',
      sched f intr c = .ok c' ∧ c'.intena = c.intena) := by
  refine ⟨fun h => ?_, fun h => ?_, fun h h' => ?_⟩
  · unfold sched
    rw [if_pos h]
  · unfold sched
    by_cases hn : c.noff ≠ 1
    · exact ⟨"sched locks", by rw [if_pos hn]⟩
    · exact ⟨"sched interruptible", by rw [if_neg hn, if_pos (by simp [h])]⟩
  · unfold sched
    rw [if_neg (by simp [h]), if_neg (by simp [h'])]
    exact ⟨_, rfl, rfl⟩

/-- Witness for `sched_invariants`: a core with `noff = 1`, interrupts
disabled, and `intena = true` switches and comes back with
`intena = true`, even under a switch effect that clobbers the whole core
record. -/
theorem sched_invariants_witness :
    ∃ c', sched (fun _ => ⟨7, false, ⟨[]⟩⟩) false ⟨1, true, Context.new⟩ =
        .ok c' ∧ c'.intena = true :=
  (sched_invariants (fun _ => ⟨7, false, ⟨[]⟩⟩) false
    ⟨1, true, Context.new⟩).2.2 rfl rfl

/-- Modelled from the spec: page size of the target
(`memlayout.rs` is outside `src/`). -/
def PGSIZE : Nat := 4096

/-- Modelled from the spec: top of the Sv39 user virtual address range. -/
def MAXVA : Nat := 2 ^ 38

/-- Modelled from the spec: the trampoline page sits "at the highest user
virtual address". -/
def TRAMPOLINE : Nat := MAXVA - PGSIZE

/-- Modelled from the spec: the trapframe page is mapped "just below
TRAMPOLINE". -/
def TRAPFRAME : Nat := TRAMPOLINE - PGSIZE

/-- `PteFlags::R`. -/
def PteFlags.R : PteFlags := ⟨true, false, false, false⟩

/-- `PteFlags::W`. -/
def PteFlags.W : PteFlags := ⟨false, true, false, false⟩

/-- `PteFlags::X`. -/
def PteFlags.X : PteFlags := ⟨false, false, true, false⟩

/-- Bitwise union of flag sets (the `|` operator on `PteFlags`). -/
def PteFlags.union (a b : PteFlags) : PteFlags :=
  ⟨a.r || b.r, a.w || b.w, a.x || b.x, a.u || b.u⟩

/-- `PageTable::uvmcreate` at this core's boundary: a fresh empty page
table, or `none` when the external allocator fails (`ok` is the
allocator's verdict). -/
def uvmcreate (ok : Bool) : Option PageTable :=
  if ok then some ⟨[], false⟩ else none

/-- `PageTable::mappages` at this core's boundary: installs one mapping,
or fails (`ok` is the external component's verdict). -/
def mappages (pt : PageTable) (va pa sz : Nat) (fl : PteFlags) (ok : Bool) :
    Option PageTable :=
  if ok then some { pt with maps := pt.maps ++ [⟨va, pa, sz, fl⟩] } else none

/-- `PageTable::uvmfree` at this core's boundary: tears the table down —
all mappings and page-table pages are deallocated. -/
def uvmfree (pt : PageTable) (_sz : Nat) : PageTable :=
  { pt with maps := [], freed := true }

/-- `ProcData::proc_pagetable`.  The three `Bool`s are the external
component's verdicts for `uvmcreate` and the two `mappages` calls, in
program order.  The first result component is the returned
`Option<*mut PageTable>`; the second records every table passed to
`uvmfree` on a failure path, so that teardown is observable. -/
def ProcData.proc_pagetable (d : ProcData) (trampolineAddr : Nat)
    (createOk map1Ok map2Ok : Bool) : Option PageTable × List PageTable :=
  match uvmcreate createOk with
  | none => (none, [])
  | some pt0 =>
    match mappages pt0 TRAMPOLINE trampolineAddr PGSIZE
        (PteFlags.R.union PteFlags.X) map1Ok with
    | none => (none, [uvmfree pt0 0])
    | some pt1 =>
      match mappages pt1 TRAPFRAME d.trapframe PGSIZE
          (PteFlags.R.union PteFlags.X) map2Ok with
      | none => (none, [uvmfree pt1 0])
      | some pt2 => (some pt2, [])

/-- `C6`: whenever creation or either of the two mappings fails,
`proc_pagetable` returns the no-address-space value and every partially
built table has been torn down (freed, no live mappings) before the
return; when everything succeeds it returns a table carrying exactly the
trampoline and trapframe mappings. -/
theorem proc_pagetable_teardown (d : ProcData) (ta : Nat)
    (c m1 m2 : Bool) :
    (¬(c = true ∧ m1 = true ∧ m2 = true) →
      (d.proc_pagetable ta c m1 m2).1 = none ∧
      ∀ pt ∈ (d.proc_pagetable ta c m1 m2).2,
        pt.freed = true ∧ pt.maps = []) ∧
    (c = true → m1 = true → m2 = true →
      d.proc_pagetable ta c m1 m2 =
        (some ⟨[⟨TRAMPOLINE, ta, PGSIZE, PteFlags.R.union PteFlags.X⟩,
                ⟨TRAPFRAME, d.trapframe, PGSIZE, PteFlags.R.union PteFlags.X⟩],
               false⟩, [])) := by
  cases c <;> cases m1 <;> cases m2 <;>
    simp [ProcData.proc_pagetable, uvmcreate, mappages, uvmfree]

/-- Witness for `proc_pagetable_teardown`: with the second mapping
failing, the call returns `none` and the only table it built was freed
with its mappings gone. -/
theorem proc_pagetable_teardown_witness :
    (ProcData.new.proc_pagetable 8192 true true false).1 = none ∧
    ∀ pt ∈ (ProcData.new.proc_pagetable 8192 true true false).2,
      pt.freed = true ∧ pt.maps = [] :=
  (proc_pagetable_teardown ProcData.new 8192 true true false).1 (by decide)

/-- `C9`: any page table a call to `proc_pagetable` successfully returns
maps the trapframe page one page below the trampoline, with a flag set
equal to the trampoline mapping's — readable and executable but, in
particular, not writable. -/
theorem proc_pagetable_trapframe_perms (d : ProcData) (ta : Nat)
    (c m1 m2 : Bool) (pt : PageTable)
    (h : (d.proc_pagetable ta c m1 m2).1 = some pt) :
    ∃ fl, pt.maps = [⟨TRAMPOLINE, ta, PGSIZE, fl⟩,
                     ⟨TRAPFRAME, d.trapframe, PGSIZE, fl⟩] ∧
      fl.r = true ∧ fl.x = true ∧ fl.w = false ∧
      TRAPFRAME + PGSIZE = TRAMPOLINE := by
  cases c <;> cases m1 <;> cases m2 <;>
    simp [ProcData.proc_pagetable, uvmcreate, mappages, uvmfree] at h
  exact ⟨PteFlags.R.union PteFlags.X, by rw [← h], by decide, by decide,
    by decide, by decide⟩

/-- Witness for `proc_pagetable_trapframe_perms` on the concrete success
run of a fresh descriptor. -/
theorem proc_pagetable_trapframe_perms_witness :
    ∃ fl, (⟨[⟨TRAMPOLINE, 8192, PGSIZE, PteFlags.R.union PteFlags.X⟩,
             ⟨TRAPFRAME, 0, PGSIZE, PteFlags.R.union PteFlags.X⟩], false⟩ :
        PageTable).maps =
      [⟨TRAMPOLINE, 8192, PGSIZE, fl⟩, ⟨TRAPFRAME, 0, PGSIZE, fl⟩] ∧
      fl.r = true ∧ fl.x = true ∧ fl.w = false ∧
      TRAPFRAME + PGSIZE = TRAMPOLINE :=
  proc_pagetable_trapframe_perms ProcData.new 8192 true true true _ rfl

/-- Observable primitive actions performed by `yielding` and `sleep`, in
program order: lock operations on the process's own lock and on the
caller-supplied external lock, field writes, and the context-switch
suspension point. -/
inductive Ev where
  | acquireOwn
  | releaseOwn
  | releaseExternal
  | acquireExternal
  | setChannel (ch : Nat)
  | setState (st : Procstate)
  | contextSwitch
deriving DecidableEq, Repr

/-- The state a running process's kernel thread acts on in `yielding` /
`sleep`: its own `ProcData`, whether its own lock and the caller's
external lock are held, and the log of primitive actions taken so far. -/
structure ProcRun where
  proc : ProcData
  ownHeld : Bool
  extHeld : Bool
  log : List Ev
deriving DecidableEq, Repr

/-- `self.data.acquire()`. -/
def acquireOwnOp (s : ProcRun) : ProcRun :=
  { s with ownHeld := true, log := s.log ++ [.acquireOwn] }

/-- `drop(guard)` on the process's own lock guard. -/
def dropOwnOp (s : ProcRun) : ProcRun :=
  { s with ownHeld := false, log := s.log ++ [.releaseOwn] }

/-- `drop(lock)` on the caller-supplied external lock guard. -/
def dropExternalOp (s : ProcRun) : ProcRun :=
  { s with extHeld := false, log := s.log ++ [.releaseExternal] }

/-- `guard.channel = ch`. -/
def setChannelOp (ch : Nat) (s : ProcRun) : ProcRun :=
  { s with proc := { s.proc with channel := ch },
           log := s.log ++ [.setChannel ch] }

/-- `guard.set_state(st)`. -/
def setStateOp (st : Procstate) (s : ProcRun) : ProcRun :=
  { s with proc := { s.proc with state := st },
           log := s.log ++ [.setState st] }

/-- The `my_cpu.sched(guard, ctx)` call: the suspension point at which
the core is handed to the scheduler; control returns here once the slot
is next scheduled. -/
def swtchOp (s : ProcRun) : ProcRun :=
  { s with log := s.log ++ [.contextSwitch] }

/-- `Process::yielding`, line by line: acquire own lock, set state
`RUNNABLE`, context-switch, and on resumption drop the own lock. -/
def yieldingRun (s : ProcRun) : ProcRun :=
  dropOwnOp (swtchOp (setStateOp .RUNNABLE (acquireOwnOp s)))

/-- `Process::sleep`, line by line: acquire own lock, drop the external
lock, record the channel, set state `SLEEPING`, context-switch, and on
resumption clear the channel and drop the own lock. -/
def sleepRun (ch : Nat) (s : ProcRun) : ProcRun :=
  dropOwnOp (setChannelOp 0 (swtchOp (setStateOp .SLEEPING
    (setChannelOp ch (dropExternalOp (acquireOwnOp s))))))

/-- The body of the scheduler's inner loop (`scheduler` in
`scheduler.rs`) for one table slot, up to the context switch: under the
slot's lock, a slot observed `RUNNABLE` is set `RUNNING` and switched
into (`true`); any other slot is left untouched and not switched into
(`false`). -/
def schedulerStep (d : ProcData) : ProcData × Bool :=
  if d.state = .RUNNABLE then ({ d with state := .RUNNING }, true)
  else (d, false)

/-- `C1`: the only state transitions the operations of this core perform
are the ones listed in §4.1 — the scheduler step moves exactly the slots
it observes `Runnable` to `Running` and touches nothing else; `yielding`
on a `Running` process writes exactly `Runnable`; `sleep` on a `Running`
process writes exactly `Sleeping` (with the channel bookkeeping);
`freeproc` on an allocated descriptor writes exactly `Unused`, and on a
null-trapframe descriptor performs no transition at all. -/
theorem transitions_only_listed (d : ProcData) (ch : Nat) (s : ProcRun) :
    (d.state = .RUNNABLE →
      schedulerStep d = ({ d with state := .RUNNING }, true)) ∧
    (d.state ≠ .RUNNABLE → schedulerStep d = (d, false)) ∧
    (s.proc.state = .RUNNING →
      (yieldingRun s).proc = { s.proc with state := .RUNNABLE }) ∧
    (s.proc.state = .RUNNING →
      (sleepRun ch s).proc = { s.proc with state := .SLEEPING, channel := 0 }) ∧
    (d.trapframe ≠ 0 → d.freeproc.state = .UNUSED) ∧
    (d.trapframe = 0 → d.freeproc = d) := by
  refine ⟨fun h => ?_, fun h => ?_, fun _ => ?_, fun _ => ?_,
    fun h => ?_, fun h => ?_⟩
  · unfold schedulerStep
    rw [if_pos h]
  · unfold schedulerStep
    rw [if_neg h]
  · rfl
  · rfl
  · unfold ProcData.freeproc
    rw [if_pos h]
  · unfold ProcData.freeproc
    rw [if_neg (by simp [h])]

/-- Witness for `transitions_only_listed`, exercising every listed
transition at concrete descriptors: a `Runnable` slot is switched into
and becomes `Running`, a `Sleeping` slot is skipped, a `Running` process
yields to `Runnable`, a `Running` process sleeps to `Sleeping`, and
`freeproc` retires an allocated descriptor to `Unused` while leaving a
null-trapframe one untouched. -/
theorem transitions_only_listed_witness :
    schedulerStep { ProcData.new with state := .RUNNABLE } =
      ({ ProcData.new with state := .RUNNING }, true) ∧
    schedulerStep { ProcData.new with state := .SLEEPING } =
      ({ ProcData.new with state := .SLEEPING }, false) ∧
    (yieldingRun ⟨{ ProcData.new with state := .RUNNING }, false, false, []⟩).proc =
      { ProcData.new with state := .RUNNABLE } ∧
    (sleepRun 42 ⟨{ ProcData.new with state := .RUNNING }, false, true, []⟩).proc =
      { ProcData.new with state := .SLEEPING, channel := 0 } ∧
    ({ ProcData.new with trapframe := 4096, state := .ZOMBIE } : ProcData).freeproc.state =
      .UNUSED ∧
    ProcData.new.freeproc = ProcData.new :=
  ⟨(transitions_only_listed { ProcData.new with state := .RUNNABLE } 42
      ⟨ProcData.new, false, false, []⟩).1 rfl,
   (transitions_only_listed { ProcData.new with state := .SLEEPING } 42
      ⟨ProcData.new, false, false, []⟩).2.1 (by decide),
   (transitions_only_listed ProcData.new 42
      ⟨{ ProcData.new with state := .RUNNING }, false, false, []⟩).2.2.1 rfl,
   (transitions_only_listed ProcData.new 42
      ⟨{ ProcData.new with state := .RUNNING }, false, true, []⟩).2.2.2.1 rfl,
   (transitions_only_listed { ProcData.new with trapframe := 4096, state := .ZOMBIE }
      42 ⟨ProcData.new, false, false, []⟩).2.2.2.2.1 (by decide),
   (transitions_only_listed ProcData.new 42
      ⟨ProcData.new, false, false, []⟩).2.2.2.2.2 rfl⟩

/-- `C2`: starting from an empty log, `sleep(channel, external_lock)`
performs exactly, and in exactly this order: acquire the own lock,
release the external lock, record the channel, set state `Sleeping`,
context-switch; then on resumption clear the channel back to zero and
release the own lock.  It never reacquires the external lock, and it
finishes with the channel zeroed and both locks released. -/
theorem sleep_order (ch : Nat) (s : ProcRun) (h : s.log = []) :
    (sleepRun ch s).log =
      [.acquireOwn, .releaseExternal, .setChannel ch, .setState .SLEEPING,
       .contextSwitch, .setChannel 0, .releaseOwn] ∧
    Ev.acquireExternal ∉ (sleepRun ch s).log ∧
    (sleepRun ch s).proc.channel = 0 ∧
    (sleepRun ch s).ownHeld = false ∧
    (sleepRun ch s).extHeld = false := by
  refine ⟨?_, ?_, rfl, rfl, rfl⟩
  · simp [sleepRun, dropOwnOp, setChannelOp, swtchOp, setStateOp,
      dropExternalOp, acquireOwnOp, h]
  · simp [sleepRun, dropOwnOp, setChannelOp, swtchOp, setStateOp,
      dropExternalOp, acquireOwnOp, h]

/-- Witness for `sleep_order`: a concrete `Running` process holding the
external lock sleeps on channel 42. -/
theorem sleep_order_witness :
    (sleepRun 42 ⟨{ ProcData.new with state := .RUNNING }, false, true, []⟩).log =
      [.acquireOwn, .releaseExternal, .setChannel 42, .setState .SLEEPING,
       .contextSwitch, .setChannel 0, .releaseOwn] ∧
    Ev.acquireExternal ∉
      (sleepRun 42 ⟨{ ProcData.new with state := .RUNNING }, false, true, []⟩).log ∧
    (sleepRun 42 ⟨{ ProcData.new with state := .RUNNING }, false, true, []⟩).proc.channel = 0 ∧
    (sleepRun 42 ⟨{ ProcData.new with state := .RUNNING }, false, true, []⟩).ownHeld = false ∧
    (sleepRun 42 ⟨{ ProcData.new with state := .RUNNING }, false, true, []⟩).extHeld = false :=
  sleep_order 42 ⟨{ ProcData.new with state := .RUNNING }, false, true, []⟩ rfl

/-- Address of the `Process` inside table slot `i`: the table
(`PROC_MANAGER.proc`, an array of `Spinlock<Process>`) starts at `base`,
each element occupies `stride` bytes (Rust arrays are contiguous with
stride = element size), and the `Process` field sits at byte offset
`off` inside its `Spinlock`.  This is what `guard.as_ptr_addr()` returns
for slot `i`. -/
def procAddr (base stride off i : Nat) : Nat := base + i * stride + off

/-- The value `ProcManager::procinit` stores into slot `i`'s `kstack`:
`curr_proc_addr - PROC_MANAGER.proc.as_ptr() as usize`. -/
def procinitKstack (base stride off i : Nat) : Nat :=
  procAddr base stride off i - base

/-- `ProcManager::procinit` over a table of `n` slots: the kstack values
assigned, slot by slot in table order. -/
def procinit (base stride off n : Nat) : List Nat :=
  (List.range n).map (procinitKstack base stride off)

/-- `C7`: after `procinit` over `n` slots, slot `i` holds the kstack
value determined by its position; kstack values are strictly increasing
with slot index (hence pairwise distinct) and consecutive slots differ by
exactly the fixed per-slot spacing `stride`; and no other operation of
this core ever writes `kstack` again — `freeproc`, `yielding`, `sleep`,
the scheduler step and `growproc` all leave it unchanged. -/
theorem procinit_kstacks (base stride off n i j : Nat)
    (hstride : 0 < stride) (hij : i < j) (hj : j < n) :
    (procinit base stride off n)[i]? = some (i * stride + off) ∧
    procinitKstack base stride off i < procinitKstack base stride off j ∧
    procinitKstack base stride off (i + 1) =
      procinitKstack base stride off i + stride ∧
    (∀ d : ProcData, d.freeproc.kstack = d.kstack) ∧
    (∀ s : ProcRun, (yieldingRun s).proc.kstack = s.proc.kstack) ∧
    (∀ c s, (sleepRun c s).proc.kstack = s.proc.kstack) ∧
    (∀ d : ProcData, (schedulerStep d).1.kstack = d.kstack) ∧
    (∀ ua ud (d : ProcData) (m : Int) b d',
      d.growproc ua ud m = some (b, d') → d'.kstack = d.kstack) := by
  refine ⟨?_, ?_, ?_, ?_, fun s => rfl, fun c s => rfl, ?_, ?_⟩
  · have hi : i < n := lt_trans hij hj
    simp [procinit, procinitKstack, procAddr, hi]
    omega
  · unfold procinitKstack procAddr
    have := Nat.mul_lt_mul_of_pos_right hij hstride
    omega
  · unfold procinitKstack procAddr
    rw [Nat.succ_mul]
    omega
  · intro d
    unfold ProcData.freeproc
    split <;> rfl
  · intro d
    unfold schedulerStep
    split <;> rfl
  · intro ua ud d m b d' hcall
    unfold ProcData.growproc at hcall
    cases hd : d.pagetable <;> rw [hd] at hcall <;> dsimp only at hcall
    · exact absurd hcall (by simp)
    · split_ifs at hcall with h1 h2
      · cases hua : ua d.size ((d.size + m.toNat) % WORD) <;>
          rw [hua] at hcall <;> dsimp only at hcall <;>
          simp only [Option.some.injEq, Prod.mk.injEq] at hcall
        · obtain ⟨-, rfl⟩ := hcall
          rfl
        · obtain ⟨-, rfl⟩ := hcall
          rfl
      · simp only [Option.some.injEq, Prod.mk.injEq] at hcall
        obtain ⟨-, rfl⟩ := hcall
        rfl
      · simp only [Option.some.injEq, Prod.mk.injEq] at hcall
        obtain ⟨-, rfl⟩ := hcall
        rfl

/-- Witness for `procinit_kstacks` on a concrete table of 4 slots with
slot stride 512 and inner offset 16, comparing slots 0 and 3. -/
theorem procinit_kstacks_witness :
    (procinit 1000 512 16 4)[0]? = some (0 * 512 + 16) ∧
    procinitKstack 1000 512 16 0 < procinitKstack 1000 512 16 3 ∧
    procinitKstack 1000 512 16 (0 + 1) =
      procinitKstack 1000 512 16 0 + 512 ∧
    (∀ d : ProcData, d.freeproc.kstack = d.kstack) ∧
    (∀ s : ProcRun, (yieldingRun s).proc.kstack = s.proc.kstack) ∧
    (∀ c s, (sleepRun c s).proc.kstack = s.proc.kstack) ∧
    (∀ d : ProcData, (schedulerStep d).1.kstack = d.kstack) ∧
    (∀ ua ud (d : ProcData) (m : Int) b d',
      d.growproc ua ud m = some (b, d') → d'.kstack = d.kstack) :=
  procinit_kstacks 1000 512 16 4 0 3 (by decide) (by decide) (by decide)

end XvSix
